import Mathlib

/-!
Verification development for the iMessage AI responder script
(src/imsg-watcher/imsg-ai-responder.py).

The program is embedded shallowly:

* JSON documents (the parsed results of json.load / json.loads, and the
  values the program builds) are modelled by the inductive `JValue`.
  A `JValue.jobj` models a Python dict produced by JSON parsing, whose
  keys are distinct strings.
* Python exceptions that the relevant code can raise are modelled by
  `PyExn`; fallible Python operations are modelled as functions into
  `Except PyExn _`.
* The filesystem transcript file is modelled by `FileState`: the file is
  absent, unreadable or unparseable, or holds a parsed JSON document.
  File writes are modelled as succeeding (a failed write is logged and
  swallowed by the code; no claim depends on a failed write).
* The remote HTTPS call is modelled by `ApiOutcome`: an HTTP success
  whose body parsed as JSON, an HTTP error status, or any other
  exception (network, timeout, body that fails to parse).
* The logger appends to a separate log file and never raises; it has no
  effect on any observable of the claims and is modelled as a no-op.
* `datetime.now().isoformat()` is modelled by an oracle `clock : Nat → String`
  indexed by the number of prior calls in the process.
* The top level `sys.exit(main() if main() is not None else 1)` is
  modelled by `script`, which evaluates the condition call of `main`
  first and, when its value is not `None`, evaluates `main` a second
  time, exactly as Python does.
-/

/-- A parsed JSON document / Python value built from JSON. -/
inductive JValue where
  | jnull
  | jbool (b : Bool)
  | jnum (n : Int)
  | jstr (s : String)
  | jarr (xs : List JValue)
  | jobj (fields : List (String × JValue))

/-- The Python exceptions the modelled code can raise. -/
inductive PyExn where
  | keyError (k : String)
  | typeError (m : String)
  | indexError
  | attributeError (m : String)
deriving DecidableEq

/-- Python truthiness (`if x:`) of a JSON-derived value. -/
def JValue.truthy : JValue → Bool
  | .jnull => false
  | .jbool b => b
  | .jnum n => !(n == 0)
  | .jstr s => !s.isEmpty
  | .jarr xs => !xs.isEmpty
  | .jobj fs => !fs.isEmpty

/-- Python list indexing: negative indices count from the end. -/
def pyIdx (n : Int) (len : Nat) : Int :=
  if n < 0 then n + len else n

/-- `xs[n]` on a Python list. -/
def pyIdxList (xs : List JValue) (n : Int) : Except PyExn JValue :=
  if 0 ≤ pyIdx n xs.length ∧ pyIdx n xs.length < (xs.length : Int) then
    .ok (xs.getD (pyIdx n xs.length).toNat .jnull)
  else .error .indexError

/-- `s[n]` on a Python string yields a one-character string. -/
def pyIdxStr (s : String) (n : Int) : Except PyExn JValue :=
  if 0 ≤ pyIdx n s.length ∧ pyIdx n s.length < (s.length : Int) then
    .ok (.jstr (String.mk [s.toList.getD (pyIdx n s.length).toNat ' ']))
  else .error .indexError

/-- Python subscript `v[k]`.  Dict lookup with a string key raises
`KeyError` when absent; JSON-derived dicts have only string keys, so a
hashable non-string key always misses.  Lists and strings accept only
integer indices.  (Bool-valued indices, an int subclass in Python, never
occur in the modelled code and are not modelled.) -/
def pySub (v k : JValue) : Except PyExn JValue :=
  match v, k with
  | .jobj fs, .jstr s =>
    (match List.lookup s fs with
     | some x => .ok x
     | none => .error (.keyError s))
  | .jobj _, .jarr _ => .error (.typeError "unhashable key")
  | .jobj _, .jobj _ => .error (.typeError "unhashable key")
  | .jobj _, _ => .error (.keyError "missing key")
  | .jarr xs, .jnum n => pyIdxList xs n
  | .jarr _, _ => .error (.typeError "list indices must be integers")
  | .jstr s, .jnum n => pyIdxStr s n
  | .jstr _, _ => .error (.typeError "string indices must be integers")
  | _, _ => .error (.typeError "not subscriptable")

/-- `pre` is a prefix of `s` (character lists). -/
def listStartsWith : List Char → List Char → Bool
  | [], _ => true
  | _ :: _, [] => false
  | p :: ps, c :: cs => p == c && listStartsWith ps cs

/-- Python `s.startswith(pre)`. -/
def py_startswith (s pre : String) : Bool :=
  listStartsWith pre.toList s.toList

/-- `needle` occurs as a contiguous substring of `hay`. -/
def subListAt (needle : List Char) : List Char → Bool
  | [] => needle.isEmpty
  | c :: cs => listStartsWith needle (c :: cs) || subListAt needle cs

/-- Python membership `key in v` where `key` is a string literal:
keys of a dict, elements of a list, substring of a string; anything else
is not iterable and raises TypeError. -/
def pyInStr (key : String) (v : JValue) : Except PyExn Bool :=
  match v with
  | .jobj fs => .ok (List.lookup key fs).isSome
  | .jarr xs => .ok (xs.any (fun x => match x with | .jstr s => s == key | _ => false))
  | .jstr s => .ok (subListAt key.toList s.toList)
  | _ => .error (.typeError "argument is not iterable")

/-- Python `len(v)`. -/
def pyLen (v : JValue) : Except PyExn Nat :=
  match v with
  | .jarr xs => .ok xs.length
  | .jobj fs => .ok fs.length
  | .jstr s => .ok s.length
  | _ => .error (.typeError "object has no len")

/-- Python `v.get(k, d)`: only dicts have the `get` method. -/
def pyGet (v : JValue) (k : String) (d : JValue) : Except PyExn JValue :=
  match v with
  | .jobj fs => .ok ((List.lookup k fs).getD d)
  | _ => .error (.attributeError "get")

/-- Python iteration `for x in v`: list elements, dict keys, or the
characters of a string; anything else raises TypeError. -/
def pyIter (v : JValue) : Except PyExn (List JValue) :=
  match v with
  | .jarr xs => .ok xs
  | .jobj fs => .ok (fs.map (fun p => JValue.jstr p.1))
  | .jstr s => .ok (s.toList.map (fun c => JValue.jstr (String.mk [c])))
  | _ => .error (.typeError "object is not iterable")

/-- Python `v.append(x)`: only lists have `append`; yields the new
list contents. -/
def pyAppend (v x : JValue) : Except PyExn (List JValue) :=
  match v with
  | .jarr xs => .ok (xs ++ [x])
  | _ => .error (.attributeError "append")

/-- Whether `v[:50]` (slicing) is legal: strings and lists slice, other
JSON-derived values raise TypeError. -/
def py_sliceable : JValue → Bool
  | .jstr _ => true
  | .jarr _ => true
  | _ => false

/-! ## Credential loader (`load_env`) -/

/-- Python whitespace, as stripped by `str.strip()`. -/
def isPySpace (c : Char) : Bool :=
  c == ' ' || c == '\t' || c == '\n' || c == '\r' ||
  c == Char.ofNat 11 || c == Char.ofNat 12

/-- The single-quote character. -/
def quoteChar : Char := Char.ofNat 39

/-- Quote characters stripped by `.strip(chr(34) + chr(39))` in the code. -/
def isQuoteChar (c : Char) : Bool := c == '"' || c == quoteChar

/-- Drop characters satisfying `p` from both ends of a character list
(the semantics of Python `str.strip`). -/
def stripCharsList (p : Char → Bool) (s : List Char) : List Char :=
  ((s.dropWhile p).reverse.dropWhile p).reverse

/-- Python `s.strip()`. -/
def pyStrip (s : String) : String := String.mk (stripCharsList isPySpace s.toList)

/-- Python `s.strip(quotes)` for the two quote characters. -/
def stripQuotes (s : String) : String := String.mk (stripCharsList isQuoteChar s.toList)

/-- `s.split(c, 1)`: the part before the first `c` (if any) and the rest. -/
def split1At (c : Char) : List Char → List Char × Option (List Char)
  | [] => ([], none)
  | d :: rest =>
    if d == c then ([], some rest)
    else
      let (b, a) := split1At c rest
      (d :: b, a)

/-- `line.split(chr(61), 1)[1].strip().strip(quotes)`.  The code indexes
`[1]`, which exists because the line is guarded by
`startswith(GOOGLE_API_KEY=)` and hence contains the equals sign; the
`getD` default is unreachable under that guard. -/
def env_line_value (line : String) : String :=
  stripQuotes (pyStrip (String.mk (((split1At '=' line.toList).2).getD [])))

/-- The fixed variable name searched for in the env file. -/
def apiKeyPrefixLine : String := "GOOGLE_API_KEY="

/-- The for-loop of `load_env`: the value of the first line starting
with `GOOGLE_API_KEY=` (the loop breaks at the first match). -/
def find_api_key : List String → Option String
  | [] => none
  | l :: ls =>
    if py_startswith l apiKeyPrefixLine then some (env_line_value l)
    else find_api_key ls

/-- Python `a or b` on an optional string: `None` and the empty string
are falsy. -/
def pyOr (a b : Option String) : Option String :=
  match a with
  | some s => if s = "" then b else some s
  | none => b

/-- `load_env()`.  `envFile` is the list of lines of `~/.claude/.env`
(as Python iterates them, trailing newline included), `none` when the
file is missing or unreadable (a read failure is caught and logged,
leaving `api_key` at `None`).  `envVar` is `os.getenv(GOOGLE_API_KEY)`. -/
def load_env (envFile : Option (List String)) (envVar : Option String) : Option String :=
  pyOr (match envFile with | none => none | some lines => find_api_key lines) envVar

/-! ## Transcript store (`load_history`, `save_history`) -/

/-- State of the transcript file `.conversation-history.json`. -/
inductive FileState where
  | absent
  | corrupt
  | content (v : JValue)

/-- `MAX_HISTORY` from the configuration section. -/
def MAX_HISTORY : Nat := 20

/-- `load_history()`: empty list when the file is missing; a caught and
logged parse or read failure also yields the empty list; otherwise the
parsed JSON document, whatever its shape. -/
def load_history : FileState → JValue
  | .absent => .jarr []
  | .corrupt => .jarr []
  | .content v => v

/-- The trimming step of `save_history`:
`history[-MAX_HISTORY:] if len(history) > MAX_HISTORY else history`. -/
def trim_history (history : List JValue) : List JValue :=
  if history.length > MAX_HISTORY then history.drop (history.length - MAX_HISTORY)
  else history

/-- `save_history(history)`: trims to the last `MAX_HISTORY` entries and
rewrites the file with the result (the write is modelled as succeeding;
a write failure is caught, logged and swallowed by the code). -/
def save_history (history : List JValue) (_fs : FileState) : FileState :=
  FileState.content (.jarr (trim_history history))

/-! ## Model client (`call_gemini`) -/

/-- Quote character as a one-character string (for text containing an
apostrophe). -/
def apostr : String := String.mk [quoteChar]

/-- The fixed persona instruction (`system_prompt` in `call_gemini`). -/
def system_prompt : String :=
  "You are Bessie, Vinod" ++ apostr ++ "s personal AI assistant accessible via iMessage.\n" ++
  "Be helpful, concise, and conversational. Keep responses brief for mobile reading (2-4 sentences max unless detail is specifically requested).\n" ++
  "You have full context of the conversation history.\n" ++
  "Identify yourself as Bessie when appropriate."

/-- One element of the `contents` array of the request payload:
`role` and the single `parts` entry text, both taken verbatim from the
transcript (hence arbitrary JSON values). -/
structure GMessage where
  role : JValue
  text : JValue

/-- Outcome of the one HTTPS request: HTTP success with the body parsed
as JSON; an HTTP error status with its body; or any other exception
(network, timeout, a body that fails to parse). -/
inductive ApiOutcome where
  | success (body : JValue)
  | httpError (code : Nat) (body : String)
  | otherError (msg : String)

/-- `messages.append` for one history element: reads `msg[role]` and
`msg[content]`, either of which can raise. -/
def turn_to_message (msg : JValue) : Except PyExn GMessage :=
  match pySub msg (.jstr "role") with
  | .error e => .error e
  | .ok role =>
    match pySub msg (.jstr "content") with
    | .error e => .error e
    | .ok content => .ok ⟨role, content⟩

/-- The history for-loop of `call_gemini`: converts stored turns in
order, propagating the first exception. -/
def turns_to_messages : List JValue → Except PyExn (List GMessage)
  | [] => .ok []
  | t :: ts =>
    match turn_to_message t with
    | .error e => .error e
    | .ok m =>
      match turns_to_messages ts with
      | .error e => .error e
      | .ok ms => .ok (m :: ms)

/-- The non-empty-history branch of message building: every stored turn
in order, then the new user turn. -/
def build_history_messages (history : JValue) (user_message : String) :
    Except PyExn (List GMessage) :=
  match pyIter history with
  | .error e => .error e
  | .ok elems =>
    match turns_to_messages elems with
    | .error e => .error e
    | .ok ms => .ok (ms ++ [⟨.jstr "user", .jstr user_message⟩])

/-- The response-extraction block inside the `try` of `call_gemini`,
operating on the parsed body; mirrors the short-circuit `and`s and the
fall-through to `return None`. -/
def extract_reply (result : JValue) : Except PyExn (Option JValue) :=
  match pyInStr "candidates" result with
  | .error e => .error e
  | .ok false => .ok none
  | .ok true =>
    match pySub result (.jstr "candidates") with
    | .error e => .error e
    | .ok cands =>
      match pyLen cands with
      | .error e => .error e
      | .ok n =>
        if n > 0 then
          match pySub cands (.jnum 0) with
          | .error e => .error e
          | .ok c0 =>
            match pyGet c0 "content" (.jobj []) with
            | .error e => .error e
            | .ok content =>
              match pyInStr "parts" content with
              | .error e => .error e
              | .ok false => .ok none
              | .ok true =>
                match pySub content (.jstr "parts") with
                | .error e => .error e
                | .ok parts =>
                  match pyLen parts with
                  | .error e => .error e
                  | .ok m =>
                    if m > 0 then
                      match pySub parts (.jnum 0) with
                      | .error e => .error e
                      | .ok p0 =>
                        match pyGet p0 "text" (.jstr "") with
                        | .error e => .error e
                        | .ok t => .ok (some t)
                    else .ok none
        else .ok none

/-- The whole `try` block of `call_gemini`: every exception raised while
reading or extracting the response is caught by the handlers, which log
and return `None`. -/
def do_request (api : ApiOutcome) : Option JValue :=
  match api with
  | .success body =>
    (match extract_reply body with
     | .ok r => r
     | .error _ => none)
  | .httpError _ _ => none
  | .otherError _ => none

/-- Result of `call_gemini`: a normal return carrying the returned value
(`none` models Python `None`) and the `contents` array of the request if
one was sent, or an uncaught exception raised while building the
payload (that code runs before the `try`). -/
inductive CallRes where
  | ok (reply : Option JValue) (request : Option (List GMessage))
  | raise (e : PyExn)

/-- The value `call_gemini` returned, when it returned. -/
def CallRes.replyOf : CallRes → Option JValue
  | .ok r _ => r
  | .raise _ => none

/-- `call_gemini(user_message, history)`. -/
def call_gemini (envFile : Option (List String)) (envVar : Option String)
    (api : ApiOutcome) (user_message : String) (history : JValue) : CallRes :=
  match load_env envFile envVar with
  | none => .ok none none
  | some key =>
    if key = "" then .ok none none
    else
      match
        (if history.truthy = false then
          .ok [⟨.jstr "user", .jstr (system_prompt ++ "\n\nUser: " ++ user_message)⟩]
         else build_history_messages history user_message :
         Except PyExn (List GMessage)) with
      | .error e => .raise e
      | .ok msgs => .ok (do_request api) (some msgs)

/-! ## Orchestrator (`main` and the `__main__` guard) -/

/-- The inputs of one process run. `argv` is `sys.argv` (program name
first); `api i` is the outcome of the i-th HTTPS request the process
makes; `clock i` is the i-th `datetime.now().isoformat()` value. -/
structure World where
  argv : List String
  envFile : Option (List String)
  envVar : Option String
  api : Nat → ApiOutcome
  clock : Nat → String
  historyFile : FileState

/-- Observable outcome of one `main()` call: the returned value
(`none` models returning `None`) or an uncaught exception; the values
printed to stdout; the transcript file afterwards; and how many HTTPS
requests and clock reads have happened in the process afterwards. -/
structure MainOut where
  result : Except PyExn (Option Int)
  printed : List JValue
  file : FileState
  apiNext : Nat
  clockNext : Nat

/-- A history turn dict as built in `main`. -/
def mk_turn (role : String) (content : JValue) (ts : String) : JValue :=
  .jobj [("role", .jstr role), ("content", content), ("timestamp", .jstr ts)]

/-- The success branch of `main` once `call_gemini` returned a value:
truthiness test, the two appends, `save_history`, `print(response)`,
and the log f-string whose `response[:50]` raises on an unsliceable
value. -/
def handle_reply (user_message : String) (r : JValue) (history : JValue)
    (file : FileState) (t1 t2 : String) (aiN ci : Nat) : MainOut :=
  if r.truthy then
    match pyAppend history (mk_turn "user" (.jstr user_message) t1) with
    | .error e => ⟨.error e, [], file, aiN, ci + 1⟩
    | .ok h1 =>
      match pyAppend (.jarr h1) (mk_turn "assistant" r t2) with
      | .error e => ⟨.error e, [], file, aiN, ci + 2⟩
      | .ok h2 =>
        if py_sliceable r then
          ⟨.ok (some 0), [r], save_history h2 file, aiN, ci + 2⟩
        else
          ⟨.error (.typeError "unsliceable"), [r], save_history h2 file, aiN, ci + 2⟩
  else ⟨.ok (some 1), [], file, aiN, ci⟩

/-- One call of `main()`, starting from transcript file `file` with
`ai` HTTPS requests and `ci` clock reads already made. -/
def main_run (w : World) (file : FileState) (ai ci : Nat) : MainOut :=
  if w.argv.length < 2 then ⟨.ok none, [], file, ai, ci⟩
  else
    match call_gemini w.envFile w.envVar (w.api ai) (w.argv.getD 1 "") (load_history file) with
    | .raise e => ⟨.error e, [], file, ai, ci⟩
    | .ok none request => ⟨.ok (some 1), [], file, (if request.isSome then ai + 1 else ai), ci⟩
    | .ok (some r) request =>
      handle_reply (w.argv.getD 1 "") r (load_history file) file
        (w.clock ci) (w.clock (ci + 1)) (if request.isSome then ai + 1 else ai) ci

/-- Observable outcome of the whole process: the exit status, or an
uncaught exception (Python then prints a traceback and exits 1); the
values printed to stdout; and the final transcript file. -/
structure ScriptOut where
  result : Except PyExn Int
  printed : List JValue
  file : FileState

/-- `sys.exit(v)` for the value of the second `main()` call. -/
def exit_of : Option Int → Int
  | none => 0
  | some n => n

/-- The module entry `sys.exit(main() if main() is not None else 1)`:
the conditional evaluates its condition `main() is not None` first,
calling `main` once; when that value is not `None`, the expression
position calls `main` a second time. -/
def script (w : World) : ScriptOut :=
  match main_run w w.historyFile 0 0 with
  | ⟨.error e, pr, f, _, _⟩ => ⟨.error e, pr, f⟩
  | ⟨.ok none, pr, f, _, _⟩ => ⟨.ok 1, pr, f⟩
  | ⟨.ok (some _), pr, f, ai, ci⟩ =>
    match main_run w f ai ci with
    | ⟨.error e, pr2, f2, _, _⟩ => ⟨.error e, pr ++ pr2, f2⟩
    | ⟨.ok v, pr2, f2, _, _⟩ => ⟨.ok (exit_of v), pr ++ pr2, f2⟩

/-! ## Heap model of `save_history` for the aliasing / frame claim

Python lists are mutable objects on a heap; `save_history` receives a
reference to the caller's list.  `history = history[-MAX_HISTORY:]`
slices (which allocates a fresh list object) and rebinds the local name
only; nothing mutates the argument object. -/

/-- A heap of Python list objects, addressed by position. -/
abbrev PyHeap := List (List JValue)

/-- Dereference a list object. -/
def heapGet (hp : PyHeap) (r : Nat) : List JValue :=
  List.getD hp r []

/-- `save_history` on the heap: reads the argument cell; when trimming
is needed, the slice allocates a fresh cell and the local name is
rebound to it; the (trimmed) contents are written to the file.  No
existing cell is written. -/
def save_history_heap (hp : PyHeap) (r : Nat) (_fs : FileState) : PyHeap × FileState :=
  if (heapGet hp r).length > MAX_HISTORY then
    (hp ++ [(heapGet hp r).drop ((heapGet hp r).length - MAX_HISTORY)],
     FileState.content (.jarr ((heapGet hp r).drop ((heapGet hp r).length - MAX_HISTORY))))
  else (hp, FileState.content (.jarr (heapGet hp r)))

/-- The heap model writes the same file contents as the direct model. -/
lemma save_history_heap_file (hp : PyHeap) (r : Nat) (fs : FileState) :
    (save_history_heap hp r fs).2 = save_history (heapGet hp r) fs := by
  unfold save_history_heap save_history trim_history
  by_cases h : (heapGet hp r).length > MAX_HISTORY
  · rw [if_pos h, if_pos h]
  · rw [if_neg h, if_neg h]

/-! ## Shared well-formedness helpers -/

/-- A transcript element on which `msg[role]` and `msg[content]` both
succeed: a dict with both keys. -/
def good_turn : JValue → Bool
  | .jobj fs => (List.lookup "role" fs).isSome && (List.lookup "content" fs).isSome
  | _ => false

/-- The request entry a well-formed stored turn contributes. -/
def good_turn_msg : JValue → GMessage
  | .jobj fs => ⟨(List.lookup "role" fs).getD .jnull, (List.lookup "content" fs).getD .jnull⟩
  | _ => ⟨.jnull, .jnull⟩

lemma turn_to_message_of_good (t : JValue) (h : good_turn t = true) :
    turn_to_message t = .ok (good_turn_msg t) := by
  cases t with
  | jobj fs =>
    simp only [good_turn, Bool.and_eq_true] at h
    obtain ⟨h1, h2⟩ := h
    obtain ⟨r, hr⟩ := Option.isSome_iff_exists.mp h1
    obtain ⟨c, hc⟩ := Option.isSome_iff_exists.mp h2
    simp [turn_to_message, pySub, good_turn_msg, hr, hc]
  | jnull => simp [good_turn] at h
  | jbool b => simp [good_turn] at h
  | jnum n => simp [good_turn] at h
  | jstr s => simp [good_turn] at h
  | jarr xs => simp [good_turn] at h

lemma turns_to_messages_of_good (ts : List JValue)
    (h : ∀ t ∈ ts, good_turn t = true) :
    turns_to_messages ts = .ok (ts.map good_turn_msg) := by
  induction ts with
  | nil => rfl
  | cons t ts ih =>
    have ht := turn_to_message_of_good t (h t (by simp))
    have hts := ih (fun x hx => h x (by simp [hx]))
    simp [turns_to_messages, ht, hts]

lemma good_turn_mk (role : String) (c : JValue) (ts : String) :
    good_turn (mk_turn role c ts) = true := rfl

/-! ## C4: save/load round trip below the cap -/

/-- C4: for every transcript of fewer than `MAX_HISTORY` turns, saving
and then loading returns the same sequence of turns in the same order
(the file write and read are modelled as succeeding). -/
theorem save_load_round_trip (h : List JValue) (fs : FileState)
    (hlen : h.length < MAX_HISTORY) :
    load_history (save_history h fs) = .jarr h := by
  have hng : ¬ h.length > MAX_HISTORY := by omega
  simp [save_history, load_history, trim_history, hng]

/-- Witness for C4 at a concrete two-turn transcript. -/
theorem save_load_round_trip_witness :
    [mk_turn "user" (.jstr "hi") "t0", mk_turn "assistant" (.jstr "yo") "t1"].length
        < MAX_HISTORY ∧
    load_history (save_history
        [mk_turn "user" (.jstr "hi") "t0", mk_turn "assistant" (.jstr "yo") "t1"]
        FileState.absent) =
      .jarr [mk_turn "user" (.jstr "hi") "t0", mk_turn "assistant" (.jstr "yo") "t1"] :=
  ⟨by decide, save_load_round_trip _ _ (by decide)⟩

/-! ## C5: save keeps exactly the last twenty turns -/

/-- C5: above the cap, `save_history` writes exactly the last
`MAX_HISTORY` turns — a suffix of the input of length `MAX_HISTORY`
(the dropped part is the prefix of earliest turns) — and at or below
the cap it writes the input unchanged. -/
theorem save_trims_to_last_twenty (h : List JValue) (fs : FileState) :
    (MAX_HISTORY < h.length →
      save_history h fs = .content (.jarr (h.drop (h.length - MAX_HISTORY))) ∧
      (trim_history h).length = MAX_HISTORY ∧
      h.take (h.length - MAX_HISTORY) ++ trim_history h = h) ∧
    (h.length ≤ MAX_HISTORY → save_history h fs = .content (.jarr h)) := by
  constructor
  · intro hl
    have hgt : h.length > MAX_HISTORY := hl
    refine ⟨by simp [save_history, trim_history, hgt], ?_, ?_⟩
    · simp only [trim_history, if_pos hgt, List.length_drop]
      omega
    · simp [trim_history, hgt, List.take_append_drop]
  · intro hl
    have hng : ¬ h.length > MAX_HISTORY := by omega
    simp [save_history, trim_history, hng]

/-- Witness for C5 at transcripts of length 21 and 1. -/
theorem save_trims_to_last_twenty_witness :
    MAX_HISTORY < (List.replicate 21 JValue.jnull).length ∧
    save_history (List.replicate 21 JValue.jnull) FileState.absent =
      .content (.jarr ((List.replicate 21 JValue.jnull).drop
        ((List.replicate 21 JValue.jnull).length - MAX_HISTORY))) ∧
    [JValue.jnull].length ≤ MAX_HISTORY ∧
    save_history [JValue.jnull] FileState.absent = .content (.jarr [JValue.jnull]) :=
  ⟨by decide,
   ((save_trims_to_last_twenty (List.replicate 21 JValue.jnull) FileState.absent).1
      (by decide)).1,
   by decide,
   (save_trims_to_last_twenty [JValue.jnull] FileState.absent).2 (by decide)⟩

/-! ## C10: `save_history` does not mutate the caller's list -/

/-- C10: `save_history` leaves every existing heap cell — in particular
the caller's list object — unchanged: trimming works on a freshly
allocated slice bound to a rebound local name. -/
theorem save_history_preserves_caller (hp : PyHeap) (r : Nat) (fs : FileState)
    (hr : r < hp.length) :
    heapGet (save_history_heap hp r fs).1 r = heapGet hp r := by
  unfold save_history_heap
  by_cases h : (heapGet hp r).length > MAX_HISTORY
  · rw [if_pos h]
    simp only [heapGet]
    rw [List.getD_append _ _ _ _ hr]
  · rw [if_neg h]

/-- Witness for C10: a 21-element list survives a trimming save. -/
theorem save_history_preserves_caller_witness :
    0 < ([List.replicate 21 JValue.jnull] : PyHeap).length ∧
    heapGet (save_history_heap [List.replicate 21 JValue.jnull] 0 FileState.absent).1 0 =
      heapGet [List.replicate 21 JValue.jnull] 0 :=
  ⟨by decide, save_history_preserves_caller _ 0 _ (by decide)⟩

/-! ## C8: no message argument -/

/-- C8: with no message argument the process writes nothing to stdout,
exits with status 1, and leaves the transcript file untouched.  (The
condition call of `main` returns `None`, so the conditional takes its
`else 1` branch and `main` runs only once.) -/
theorem no_argument_silent_failure (w : World) (ha : w.argv.length < 2) :
    (script w).result = .ok 1 ∧ (script w).printed = [] ∧
    (script w).file = w.historyFile := by
  unfold script main_run
  simp [ha]

/-- A concrete world with no message argument. -/
def c8World : World :=
  { argv := ["imsg-ai-responder.py"]
    envFile := none
    envVar := some "k"
    api := fun _ => .httpError 500 "unused"
    clock := fun _ => "t"
    historyFile := .absent }

/-- Witness for C8. -/
theorem no_argument_silent_failure_witness :
    c8World.argv.length < 2 ∧
    ((script c8World).result = .ok 1 ∧ (script c8World).printed = [] ∧
     (script c8World).file = c8World.historyFile) :=
  ⟨by decide, no_argument_silent_failure c8World (by decide)⟩

/-! ## C9: empty value in the env file falls back to the environment -/

lemma find_api_key_append (pre : List String) (line : String) (post : List String)
    (hpre : ∀ l ∈ pre, py_startswith l apiKeyPrefixLine = false)
    (hline : py_startswith line apiKeyPrefixLine = true) :
    find_api_key (pre ++ line :: post) = some (env_line_value line) := by
  induction pre with
  | nil => simp [find_api_key, hline]
  | cons p ps ih =>
    have hp := hpre p (by simp)
    simp only [List.cons_append, find_api_key, hp, if_false, Bool.false_eq_true]
    exact ih (fun l hl => hpre l (by simp [hl]))

/-- C9: when the first matching `GOOGLE_API_KEY=` line of the env file
strips to the empty string, `load_env` returns the environment variable,
not the empty string from the file (Python `or` treats the empty string
as falsy). -/
theorem empty_env_value_falls_back (pre : List String) (line : String)
    (post : List String) (envVar : Option String)
    (hpre : ∀ l ∈ pre, py_startswith l apiKeyPrefixLine = false)
    (hline : py_startswith line apiKeyPrefixLine = true)
    (hempty : env_line_value line = "") :
    load_env (some (pre ++ line :: post)) envVar = envVar := by
  show pyOr (find_api_key (pre ++ line :: post)) envVar = envVar
  rw [find_api_key_append pre line post hpre hline, hempty]
  simp [pyOr]

/-- Witness for C9: a line whose value is whitespace only. -/
theorem empty_env_value_falls_back_witness :
    py_startswith "GOOGLE_API_KEY=  " apiKeyPrefixLine = true ∧
    env_line_value "GOOGLE_API_KEY=  " = "" ∧
    load_env (some ["OTHER=x", "GOOGLE_API_KEY=  "]) (some "envkey") = some "envkey" :=
  ⟨by decide, by decide,
   empty_env_value_falls_back ["OTHER=x"] "GOOGLE_API_KEY=  " [] (some "envkey")
     (by intro l hl; rw [List.mem_singleton] at hl; subst hl; decide)
     (by decide) (by decide)⟩

/-! ## C6: a failed model call leaves the transcript file untouched -/

lemma main_run_file_of_no_reply (w : World) (file : FileState) (ai ci : Nat)
    (H : ∀ i msg hist,
      (call_gemini w.envFile w.envVar (w.api i) msg hist).replyOf = none) :
    (main_run w file ai ci).file = file := by
  unfold main_run
  by_cases ha : w.argv.length < 2
  · simp [ha]
  · rw [if_neg ha]
    have hr := H ai (w.argv.getD 1 "") (load_history file)
    cases hc : call_gemini w.envFile w.envVar (w.api ai) (w.argv.getD 1 "")
        (load_history file) with
    | raise e => simp
    | ok reply req =>
      rw [hc] at hr
      simp only [CallRes.replyOf] at hr
      subst hr
      simp

/-- C6: whenever `call_gemini` returns absent (`None`), the transcript
file at the end of the process is exactly the one it started with:
`save_history` is never invoked. -/
theorem failed_call_leaves_transcript_untouched (w : World)
    (H : ∀ i msg hist,
      (call_gemini w.envFile w.envVar (w.api i) msg hist).replyOf = none) :
    (script w).file = w.historyFile := by
  have h1 := main_run_file_of_no_reply w w.historyFile 0 0 H
  rcases hm1 : main_run w w.historyFile 0 0 with ⟨res1, pr1, f1, ai1, ci1⟩
  rw [hm1] at h1
  simp only at h1
  subst h1
  have h2 := main_run_file_of_no_reply w w.historyFile ai1 ci1 H
  rcases hm2 : main_run w w.historyFile ai1 ci1 with ⟨res2, pr2, f2, ai2, ci2⟩
  rw [hm2] at h2
  simp only at h2
  subst h2
  cases res1 with
  | error e => simp [script, hm1]
  | ok v1 =>
    cases v1 with
    | none => simp [script, hm1]
    | some n =>
      cases res2 with
      | error e => simp [script, hm1, hm2]
      | ok v2 => simp [script, hm1, hm2]

/-- A concrete world whose credential cannot be resolved, so every model
call fails. -/
def c6World : World :=
  { argv := ["imsg-ai-responder.py", "hi"]
    envFile := none
    envVar := none
    api := fun _ => .httpError 500 "boom"
    clock := fun _ => "t"
    historyFile := .content (.jarr [mk_turn "user" (.jstr "old") "t"]) }

/-- Witness for C6. -/
theorem failed_call_leaves_transcript_untouched_witness :
    (script c6World).file = c6World.historyFile :=
  failed_call_leaves_transcript_untouched c6World (fun _ _ _ => rfl)

/-! ## C7: shape of the outgoing request -/

/-- C7: with a resolved non-empty key, the request sent for an empty
transcript is a single user turn whose text is the persona instruction
joined to the message; for a non-empty transcript of well-formed turns
it is every stored turn's role and content in order followed by one new
user turn with the message. -/
theorem request_payload_shape (envFile : Option (List String))
    (envVar : Option String) (api : ApiOutcome) (msg key : String)
    (hkey : load_env envFile envVar = some key) (hne : key ≠ "") :
    (call_gemini envFile envVar api msg (.jarr []) =
      .ok (do_request api)
        (some [⟨.jstr "user", .jstr (system_prompt ++ "\n\nUser: " ++ msg)⟩])) ∧
    (∀ turns : List JValue, turns ≠ [] →
      (∀ t ∈ turns, good_turn t = true) →
      call_gemini envFile envVar api msg (.jarr turns) =
        .ok (do_request api)
          (some (turns.map good_turn_msg ++ [⟨.jstr "user", .jstr msg⟩]))) := by
  constructor
  · unfold call_gemini
    rw [hkey]
    simp [hne, JValue.truthy]
  · intro turns hturns hgood
    unfold call_gemini
    rw [hkey]
    cases turns with
    | nil => exact absurd rfl hturns
    | cons t ts =>
      simp [hne, JValue.truthy, build_history_messages, pyIter,
        turns_to_messages_of_good _ hgood]

set_option maxRecDepth 10000 in
/-- Witness for C7 at a concrete key, message and one-turn transcript. -/
theorem request_payload_shape_witness :
    load_env none (some "k") = some "k" ∧
    (call_gemini none (some "k") (.httpError 500 "x") "hi" (.jarr []) =
      .ok none (some [⟨.jstr "user", .jstr (system_prompt ++ "\n\nUser: hi")⟩])) ∧
    (call_gemini none (some "k") (.httpError 500 "x") "hi"
        (.jarr [mk_turn "user" (.jstr "a") "t"]) =
      .ok none (some ([mk_turn "user" (.jstr "a") "t"].map good_turn_msg ++
        [⟨.jstr "user", .jstr "hi"⟩]))) :=
  ⟨rfl,
   (request_payload_shape none (some "k") (.httpError 500 "x") "hi" "k" rfl
      (by decide)).1,
   (request_payload_shape none (some "k") (.httpError 500 "x") "hi" "k" rfl
      (by decide)).2 [mk_turn "user" (.jstr "a") "t"] (by simp)
      (by intro t ht; rw [List.mem_singleton] at ht; subst ht; rfl)⟩

/-! ## C3: response handling on HTTP success with missing fields -/

lemma pyIdxList_cons_zero (x : JValue) (xs : List JValue) :
    pyIdxList (x :: xs) 0 = .ok x := by
  have h0 : pyIdx 0 (x :: xs).length = 0 := by simp [pyIdx]
  unfold pyIdxList
  rw [h0]
  rw [if_pos ⟨le_refl 0, by rw [List.length_cons]; omega⟩]
  rfl

lemma pySub_arr_zero (x : JValue) (xs : List JValue) :
    pySub (.jarr (x :: xs)) (.jnum 0) = .ok x :=
  pyIdxList_cons_zero x xs

/-- With a resolved key and empty transcript, the value `call_gemini`
returns is exactly what the try-block produces. -/
lemma call_gemini_empty_history_reply (envFile : Option (List String))
    (envVar : Option String) (api : ApiOutcome) (msg key : String)
    (hkey : load_env envFile envVar = some key) (hne : key ≠ "") :
    (call_gemini envFile envVar api msg (.jarr [])).replyOf = do_request api := by
  unfold call_gemini
  rw [hkey]
  simp [hne, JValue.truthy, CallRes.replyOf]

lemma extract_no_candidates (fs : List (String × JValue))
    (h : List.lookup "candidates" fs = none) :
    extract_reply (.jobj fs) = .ok none := by
  simp [extract_reply, pyInStr, h]

lemma extract_empty_candidates (fs : List (String × JValue))
    (h : List.lookup "candidates" fs = some (.jarr [])) :
    extract_reply (.jobj fs) = .ok none := by
  simp [extract_reply, pyInStr, pySub, pyLen, h]

lemma extract_first_candidate (fs cfs : List (String × JValue))
    (cs : List JValue)
    (h : List.lookup "candidates" fs = some (.jarr (.jobj cfs :: cs))) :
    extract_reply (.jobj fs) =
      (match pyGet (.jobj cfs) "content" (.jobj []) with
       | .error e => .error e
       | .ok content =>
         match pyInStr "parts" content with
         | .error e => .error e
         | .ok false => .ok none
         | .ok true =>
           match pySub content (.jstr "parts") with
           | .error e => .error e
           | .ok parts =>
             match pyLen parts with
             | .error e => .error e
             | .ok m =>
               if m > 0 then
                 match pySub parts (.jnum 0) with
                 | .error e => .error e
                 | .ok p0 =>
                   match pyGet p0 "text" (.jstr "") with
                   | .error e => .error e
                   | .ok t => .ok (some t)
               else .ok none) := by
  have hn : (JValue.jobj cfs :: cs).length > 0 := Nat.succ_pos _
  simp [extract_reply, pyInStr, pySub, pyLen, h, hn, pyIdxList_cons_zero]

lemma extract_missing_content (fs cfs : List (String × JValue))
    (cs : List JValue)
    (h : List.lookup "candidates" fs = some (.jarr (.jobj cfs :: cs)))
    (hc : List.lookup "content" cfs = none) :
    extract_reply (.jobj fs) = .ok none := by
  rw [extract_first_candidate fs cfs cs h]
  simp [pyGet, pyInStr, hc]

lemma extract_missing_parts (fs cfs ccs : List (String × JValue))
    (cs : List JValue)
    (h : List.lookup "candidates" fs = some (.jarr (.jobj cfs :: cs)))
    (hc : List.lookup "content" cfs = some (.jobj ccs))
    (hp : List.lookup "parts" ccs = none) :
    extract_reply (.jobj fs) = .ok none := by
  rw [extract_first_candidate fs cfs cs h]
  simp [pyGet, pyInStr, hc, hp]

lemma extract_empty_parts (fs cfs ccs : List (String × JValue))
    (cs : List JValue)
    (h : List.lookup "candidates" fs = some (.jarr (.jobj cfs :: cs)))
    (hc : List.lookup "content" cfs = some (.jobj ccs))
    (hp : List.lookup "parts" ccs = some (.jarr [])) :
    extract_reply (.jobj fs) = .ok none := by
  rw [extract_first_candidate fs cfs cs h]
  simp [pyGet, pyInStr, pySub, pyLen, hc, hp]

lemma extract_missing_text (fs cfs ccs pfs : List (String × JValue))
    (cs ps : List JValue)
    (h : List.lookup "candidates" fs = some (.jarr (.jobj cfs :: cs)))
    (hc : List.lookup "content" cfs = some (.jobj ccs))
    (hp : List.lookup "parts" ccs = some (.jarr (.jobj pfs :: ps)))
    (ht : List.lookup "text" pfs = none) :
    extract_reply (.jobj fs) = .ok (some (.jstr "")) := by
  rw [extract_first_candidate fs cfs cs h]
  have hn : (JValue.jobj pfs :: ps).length > 0 := Nat.succ_pos _
  simp [pyGet, pyInStr, pySub, pyLen, hc, hp, hn, pyIdxList_cons_zero, ht]

/-- The body used by the counterexample: a success response whose first
part has no `text` field. -/
def noTextBody : JValue :=
  .jobj [("candidates", .jarr [.jobj [("content",
    .jobj [("parts", .jarr [.jobj []])])]])]

set_option maxRecDepth 10000 in
/-- Counterexample to C3 as stated: on an HTTP-success response whose
first part lacks the `text` field, `call_gemini` returns the empty
string — a string value — not `None` (`.get(text, empty)` supplies the
empty-string default). -/
theorem call_gemini_missing_text_not_none :
    call_gemini none (some "k") (.success noTextBody) "m" (.jarr []) =
      .ok (some (.jstr ""))
        (some [⟨.jstr "user", .jstr (system_prompt ++ "\n\nUser: m")⟩]) ∧
    (call_gemini none (some "k") (.success noTextBody) "m" (.jarr [])).replyOf ≠
      none :=
  ⟨rfl, by intro h; rw [show (call_gemini none (some "k") (.success noTextBody)
      "m" (.jarr [])).replyOf = some (.jstr "") from rfl] at h; exact Option.noConfusion h⟩

/-- C3 as amended: with a resolved key, an HTTP-success response with no
`candidates` key, an empty candidate list, a first candidate without
`content`, a content without `parts`, or an empty parts list makes
`call_gemini` return `None`; but a first part lacking the `text` field
makes it return the empty string (a string value), not `None`. -/
theorem call_gemini_absent_field_cases (envFile : Option (List String))
    (envVar : Option String) (msg key : String)
    (hkey : load_env envFile envVar = some key) (hne : key ≠ "") :
    (∀ fs, List.lookup "candidates" fs = none →
      (call_gemini envFile envVar (.success (.jobj fs)) msg (.jarr [])).replyOf
        = none) ∧
    (∀ fs, List.lookup "candidates" fs = some (.jarr []) →
      (call_gemini envFile envVar (.success (.jobj fs)) msg (.jarr [])).replyOf
        = none) ∧
    (∀ fs cfs cs, List.lookup "candidates" fs = some (.jarr (.jobj cfs :: cs)) →
      List.lookup "content" cfs = none →
      (call_gemini envFile envVar (.success (.jobj fs)) msg (.jarr [])).replyOf
        = none) ∧
    (∀ fs cfs ccs cs, List.lookup "candidates" fs = some (.jarr (.jobj cfs :: cs)) →
      List.lookup "content" cfs = some (.jobj ccs) →
      List.lookup "parts" ccs = none →
      (call_gemini envFile envVar (.success (.jobj fs)) msg (.jarr [])).replyOf
        = none) ∧
    (∀ fs cfs ccs cs, List.lookup "candidates" fs = some (.jarr (.jobj cfs :: cs)) →
      List.lookup "content" cfs = some (.jobj ccs) →
      List.lookup "parts" ccs = some (.jarr []) →
      (call_gemini envFile envVar (.success (.jobj fs)) msg (.jarr [])).replyOf
        = none) ∧
    (∀ fs cfs ccs pfs cs ps, List.lookup "candidates" fs = some (.jarr (.jobj cfs :: cs)) →
      List.lookup "content" cfs = some (.jobj ccs) →
      List.lookup "parts" ccs = some (.jarr (.jobj pfs :: ps)) →
      List.lookup "text" pfs = none →
      (call_gemini envFile envVar (.success (.jobj fs)) msg (.jarr [])).replyOf
        = some (.jstr "")) := by
  refine ⟨fun fs h => ?_, fun fs h => ?_, fun fs cfs cs h hc => ?_,
    fun fs cfs ccs cs h hc hp => ?_, fun fs cfs ccs cs h hc hp => ?_,
    fun fs cfs ccs pfs cs ps h hc hp ht => ?_⟩
  · rw [call_gemini_empty_history_reply envFile envVar _ msg key hkey hne]
    simp [do_request, extract_no_candidates fs h]
  · rw [call_gemini_empty_history_reply envFile envVar _ msg key hkey hne]
    simp [do_request, extract_empty_candidates fs h]
  · rw [call_gemini_empty_history_reply envFile envVar _ msg key hkey hne]
    simp [do_request, extract_missing_content fs cfs cs h hc]
  · rw [call_gemini_empty_history_reply envFile envVar _ msg key hkey hne]
    simp [do_request, extract_missing_parts fs cfs ccs cs h hc hp]
  · rw [call_gemini_empty_history_reply envFile envVar _ msg key hkey hne]
    simp [do_request, extract_empty_parts fs cfs ccs cs h hc hp]
  · rw [call_gemini_empty_history_reply envFile envVar _ msg key hkey hne]
    simp [do_request, extract_missing_text fs cfs ccs pfs cs ps h hc hp ht]

set_option maxRecDepth 10000 in
/-- Witness for the amended C3, instantiating all six cases. -/
theorem call_gemini_absent_field_cases_witness :
    load_env none (some "k") = some "k" ∧
    (call_gemini none (some "k") (.success (.jobj [])) "m" (.jarr [])).replyOf
      = none ∧
    (call_gemini none (some "k")
        (.success (.jobj [("candidates", .jarr [])])) "m" (.jarr [])).replyOf
      = none ∧
    (call_gemini none (some "k")
        (.success (.jobj [("candidates", .jarr [.jobj []])])) "m"
        (.jarr [])).replyOf = none ∧
    (call_gemini none (some "k")
        (.success (.jobj [("candidates", .jarr [.jobj [("content", .jobj [])]])]))
        "m" (.jarr [])).replyOf = none ∧
    (call_gemini none (some "k")
        (.success (.jobj [("candidates", .jarr [.jobj [("content",
          .jobj [("parts", .jarr [])])]])])) "m" (.jarr [])).replyOf = none ∧
    (call_gemini none (some "k") (.success noTextBody) "m" (.jarr [])).replyOf
      = some (.jstr "") :=
  ⟨rfl,
   (call_gemini_absent_field_cases none (some "k") "m" "k" rfl (by decide)).1
     [] rfl,
   (call_gemini_absent_field_cases none (some "k") "m" "k" rfl (by decide)).2.1
     [("candidates", .jarr [])] rfl,
   (call_gemini_absent_field_cases none (some "k") "m" "k" rfl (by decide)).2.2.1
     [("candidates", .jarr [.jobj []])] [] [] rfl rfl,
   (call_gemini_absent_field_cases none (some "k") "m" "k" rfl (by decide)).2.2.2.1
     [("candidates", .jarr [.jobj [("content", .jobj [])]])]
     [("content", .jobj [])] [] [] rfl rfl rfl,
   (call_gemini_absent_field_cases none (some "k") "m" "k" rfl (by decide)).2.2.2.2.1
     [("candidates", .jarr [.jobj [("content", .jobj [("parts", .jarr [])])]])]
     [("content", .jobj [("parts", .jarr [])])] [("parts", .jarr [])] [] rfl rfl rfl,
   (call_gemini_absent_field_cases none (some "k") "m" "k" rfl (by decide)).2.2.2.2.2
     [("candidates", .jarr [.jobj [("content", .jobj [("parts",
        .jarr [.jobj []])])]])]
     [("content", .jobj [("parts", .jarr [.jobj []])])]
     [("parts", .jarr [.jobj []])] [] [] [] rfl rfl rfl rfl⟩

/-! ## C2: uncaught exceptions -/

/-- Transcript files on which `main` cannot crash: absent, unreadable,
or a JSON array of objects that all carry `role` and `content`. -/
def good_file : FileState → Bool
  | .absent => true
  | .corrupt => true
  | .content (.jarr ts) => ts.all good_turn
  | .content _ => false

/-- The value the try-block produces is text or absent (the shapes the
remote contract yields: `parts[0].get(text, default)` on a conforming
body is a string, and every failure is `None`). -/
def reply_is_text (o : ApiOutcome) : Bool :=
  match do_request o with
  | none => true
  | some (.jstr _) => true
  | some _ => false

/-- `Except.ok`-ness of the process result, as a Boolean. -/
def except_is_ok : Except PyExn Int → Bool
  | .ok _ => true
  | .error _ => false

lemma load_history_good (file : FileState) (hf : good_file file = true) :
    ∃ ts, load_history file = .jarr ts ∧ ∀ t ∈ ts, good_turn t = true := by
  cases file with
  | absent => exact ⟨[], rfl, by simp⟩
  | corrupt => exact ⟨[], rfl, by simp⟩
  | content v =>
    cases v with
    | jarr ts =>
      refine ⟨ts, rfl, ?_⟩
      simpa [good_file, List.all_eq_true] using hf
    | jnull => simp [good_file] at hf
    | jbool b => simp [good_file] at hf
    | jnum n => simp [good_file] at hf
    | jstr s => simp [good_file] at hf
    | jobj fs => simp [good_file] at hf

lemma call_gemini_no_raise (envFile : Option (List String))
    (envVar : Option String) (api : ApiOutcome) (msg : String)
    (ts : List JValue) (hts : ∀ t ∈ ts, good_turn t = true) :
    call_gemini envFile envVar api msg (.jarr ts) = .ok none none ∨
    ∃ req, call_gemini envFile envVar api msg (.jarr ts) =
      .ok (do_request api) (some req) := by
  unfold call_gemini
  cases hk : load_env envFile envVar with
  | none => exact Or.inl rfl
  | some key =>
    dsimp only
    by_cases hke : key = ""
    · left
      simp [hke]
    · right
      rw [if_neg hke]
      by_cases hemp : (JValue.jarr ts).truthy = false
      · rw [if_pos hemp]
        exact ⟨_, rfl⟩
      · rw [if_neg hemp]
        have hb : build_history_messages (.jarr ts) msg =
            .ok (ts.map good_turn_msg ++ [⟨.jstr "user", .jstr msg⟩]) := by
          simp [build_history_messages, pyIter, turns_to_messages_of_good ts hts]
        rw [hb]
        exact ⟨_, rfl⟩

lemma good_file_save (l : List JValue) (file : FileState)
    (hl : ∀ t ∈ l, good_turn t = true) :
    good_file (save_history l file) = true := by
  show (trim_history l).all good_turn = true
  refine List.all_eq_true.mpr fun t ht => hl t ?_
  unfold trim_history at ht
  by_cases h : l.length > MAX_HISTORY
  · rw [if_pos h] at ht
    exact List.drop_subset _ _ ht
  · rw [if_neg h] at ht
    exact ht

/-- `Except.ok`-ness of a `main` result, as a Boolean. -/
def mainres_is_ok : Except PyExn (Option Int) → Bool
  | .ok _ => true
  | .error _ => false

lemma main_run_ok (w : World) (file : FileState) (ai ci : Nat)
    (hf : good_file file = true)
    (hapi : ∀ i, reply_is_text (w.api i) = true) :
    mainres_is_ok (main_run w file ai ci).result = true ∧
    good_file (main_run w file ai ci).file = true := by
  unfold main_run
  by_cases ha : w.argv.length < 2
  · rw [if_pos ha]
    exact ⟨rfl, hf⟩
  · rw [if_neg ha]
    obtain ⟨ts, hl, hts⟩ := load_history_good file hf
    rw [hl]
    rcases call_gemini_no_raise w.envFile w.envVar (w.api ai)
        (w.argv.getD 1 "") ts hts with hc | ⟨req, hc⟩
    · rw [hc]
      exact ⟨rfl, hf⟩
    · rw [hc]
      cases hdr : do_request (w.api ai) with
      | none => exact ⟨rfl, hf⟩
      | some r =>
        have hrt := hapi ai
        unfold reply_is_text at hrt
        rw [hdr] at hrt
        cases r with
        | jstr s =>
          dsimp only [handle_reply]
          by_cases hs : (JValue.jstr s).truthy = true
          · rw [if_pos hs]
            dsimp only [pyAppend]
            rw [if_pos (show py_sliceable (.jstr s) = true from rfl)]
            refine ⟨rfl, ?_⟩
            dsimp only
            apply good_file_save
            intro t ht
            rcases List.mem_append.mp ht with h1 | h2
            · rcases List.mem_append.mp h1 with h3 | h4
              · exact hts t h3
              · rw [List.mem_singleton] at h4
                subst h4
                exact good_turn_mk _ _ _
            · rw [List.mem_singleton] at h2
              subst h2
              exact good_turn_mk _ _ _
          · rw [if_neg hs]
            exact ⟨rfl, hf⟩
        | jnull => simp at hrt
        | jbool b => simp at hrt
        | jnum n => simp at hrt
        | jarr xs => simp at hrt
        | jobj fs => simp at hrt

/-- C2 as amended: when the transcript file is absent, unreadable, or a
JSON array of objects each carrying `role` and `content`, and every
reply the try-block can produce is text or absent, no exception
propagates out of the program: the process always reaches `sys.exit`
with a status code. -/
theorem script_wellformed_no_uncaught (w : World)
    (hf : good_file w.historyFile = true)
    (hapi : ∀ i, reply_is_text (w.api i) = true) :
    except_is_ok (script w).result = true := by
  obtain ⟨h1r, h1f⟩ := main_run_ok w w.historyFile 0 0 hf hapi
  rcases hm1 : main_run w w.historyFile 0 0 with ⟨res1, pr1, f1, ai1, ci1⟩
  rw [hm1] at h1r h1f
  dsimp only at h1r h1f
  obtain ⟨h2r, h2f⟩ := main_run_ok w f1 ai1 ci1 h1f hapi
  rcases hm2 : main_run w f1 ai1 ci1 with ⟨res2, pr2, f2, ai2, ci2⟩
  rw [hm2] at h2r
  dsimp only at h2r
  cases res1 with
  | error e => simp [mainres_is_ok] at h1r
  | ok v1 =>
    cases v1 with
    | none => simp [script, hm1, except_is_ok]
    | some n =>
      cases res2 with
      | error e => simp [mainres_is_ok] at h2r
      | ok v2 => simp [script, hm1, hm2, except_is_ok]

/-- A success body carrying the text `hello`. -/
def helloBody : JValue :=
  .jobj [("candidates", .jarr [.jobj [("content",
    .jobj [("parts", .jarr [.jobj [("text", .jstr "hello")]])])]])]

/-- A world with a well-formed one-turn transcript and a conforming
remote response. -/
def c2GoodWorld : World :=
  { argv := ["imsg-ai-responder.py", "hi"]
    envFile := none
    envVar := some "k"
    api := fun _ => .success helloBody
    clock := fun i => toString i
    historyFile := .content (.jarr [mk_turn "user" (.jstr "old") "t"]) }

set_option maxRecDepth 10000 in
/-- Witness for the amended C2. -/
theorem script_wellformed_no_uncaught_witness :
    except_is_ok (script c2GoodWorld).result = true :=
  script_wellformed_no_uncaught c2GoodWorld rfl (fun _ => rfl)

/-- A world whose transcript file holds valid JSON — the array `[1]` —
whose element is not an object with `role` and `content`. -/
def c2BadWorld : World :=
  { argv := ["imsg-ai-responder.py", "hi"]
    envFile := none
    envVar := some "k"
    api := fun _ => .success helloBody
    clock := fun i => toString i
    historyFile := .content (.jarr [.jnum 1]) }

set_option maxRecDepth 10000 in
/-- Counterexample to C2 as stated: with the transcript file holding the
valid JSON `[1]`, building the payload evaluates `msg[role]` on the
integer `1` — outside the try-block — and the TypeError propagates
uncaught out of the program (Python prints a traceback; no clean failure
return value is produced). -/
theorem script_uncaught_on_nonobject_history :
    (script c2BadWorld).result = .error (.typeError "not subscriptable") ∧
    except_is_ok (script c2BadWorld).result = false :=
  ⟨rfl, rfl⟩

/-! ## C1: behavior on a successful round trip -/

/-- The invocation of C1: one message argument, an absent transcript
file, a resolved key, and a remote that answers every request with
`helloBody` (the body whose only part text is `hello`). -/
def c1World : World :=
  { argv := ["imsg-ai-responder.py", "hi"]
    envFile := none
    envVar := some "k"
    api := fun _ => .success helloBody
    clock := fun i => toString i
    historyFile := .absent }

set_option maxRecDepth 10000 in
/-- Evaluation of the code at the failing input of C1: because the
`__main__` line `sys.exit(main() if main() is not None else 1)`
evaluates its condition first and then calls `main` a second time, the
process prints `hello` twice, appends four turns (user, assistant,
user, assistant) to the transcript file, and exits 0 — not one line and
two turns as claimed. -/
theorem script_success_runs_main_twice :
    (script c1World).result = .ok 0 ∧
    (script c1World).printed = [.jstr "hello", .jstr "hello"] ∧
    (script c1World).file = .content (.jarr
      [mk_turn "user" (.jstr "hi") "0",
       mk_turn "assistant" (.jstr "hello") "1",
       mk_turn "user" (.jstr "hi") "2",
       mk_turn "assistant" (.jstr "hello") "3"]) :=
  ⟨rfl, rfl, rfl⟩
